import Mathlib

/-!
Verification of the Pacifica notifications-workflow notebook
(`src/docker/jupytervolume/Pacifica v2.0 Notifications.ipynb`).

The notebook's original code is the `SimpleEventHandler` class (download all
files of an event, uppercase their contents, re-upload them under a new
transaction tagged `uppercase_text = True`) and one router registration whose
jsonpath predicate selects events carrying a `TransactionKeyValue` record with
`key = "uppercase_text"` and `value = "False"`.

The external Pacifica services and client libraries (download/upload runners,
the cloud-event extraction helpers, the jsonpath engine, the dispatcher task
runner) are not part of the repository; where a claim depends on them they are
modelled from the spec, as flagged in the individual doc comments.
-/

namespace Pacifica

instance {ε α : Type} [DecidableEq ε] [DecidableEq α] : DecidableEq (Except ε α) :=
  fun x y =>
    match x, y with
    | Except.error a, Except.error b =>
      if h : a = b then isTrue (by rw [h])
      else isFalse (by intro hc; cases hc; exact h rfl)
    | Except.error _, Except.ok _ => isFalse (by intro hc; cases hc)
    | Except.ok _, Except.error _ => isFalse (by intro hc; cases hc)
    | Except.ok a, Except.ok b =>
      if h : a = b then isTrue (by rw [h])
      else isFalse (by intro hc; cases hc; exact h rfl)

/-- Python `str.upper`, modelled character-wise (ASCII uppercase transform). -/
def str_upper (s : String) : String :=
  String.mk (s.data.map Char.toUpper)

/-- Model of `pacifica.dispatcher.models.Transaction`: the transaction fields the
notebook uses (`_id`, `submitter`, `instrument`, `project`); all optional,
defaulting to `None` as in the library's keyword-argument constructor. -/
structure Transaction where
  _id : Option String := none
  submitter : Option String := none
  instrument : Option String := none
  project : Option String := none
deriving DecidableEq, Repr

/-- Model of `pacifica.dispatcher.models.TransactionKeyValue`: a key/value annotation
attached to an upload. -/
structure TransactionKeyValue where
  key : String
  value : Option String
deriving DecidableEq, Repr

/-- Model of `pacifica.dispatcher.models.File`: a file reference of the triggering
event, used to request a download. -/
structure File where
  name : String
deriving DecidableEq, Repr

/-- A cloud event as consumed by the handler: the transaction, the transaction
key-value pairs and the file references extracted from the event payload. -/
structure Event where
  transaction : Transaction
  transactionKeyValues : List TransactionKeyValue
  files : List File
deriving DecidableEq, Repr

/-- Modelled from the spec: `Transaction.from_cloudevents_model` (external
`pacifica.dispatcher.models`) extracts the transaction record of the event
payload. -/
def Transaction.from_cloudevents_model (event : Event) : Transaction :=
  event.transaction

/-- Modelled from the spec: `TransactionKeyValue.from_cloudevents_model`
(external `pacifica.dispatcher.models`) extracts the key/value records of the
event payload. -/
def TransactionKeyValue.from_cloudevents_model (event : Event) :
    List TransactionKeyValue :=
  event.transactionKeyValues

/-- Modelled from the spec: `File.from_cloudevents_model` (external
`pacifica.dispatcher.models`) extracts the file records of the event
payload. -/
def File.from_cloudevents_model (event : Event) : List File :=
  event.files

/-- A downloaded file as seen through a `file_opener`: its name (`file_fd.name`)
and its contents (`file_fd.read()`). -/
structure DownloadedFile where
  name : String
  contents : String
deriving DecidableEq, Repr

/-- The `(_bundle, _job_id, _state)` triple returned by
`uploader_runner.upload`. -/
structure UploadResponse where
  bundle : Nat
  job_id : Nat
  state : String
deriving DecidableEq, Repr

/-- One call to `uploader_runner.upload`: the files present in the uploader
scratch directory, the transaction argument and the transaction key-value
argument. -/
structure UploadCall where
  dirFiles : List DownloadedFile
  transaction : Transaction
  transaction_key_values : List TransactionKeyValue
deriving DecidableEq, Repr

/-- The Python value a handler invocation produces: `None` (the `handle`
method's annotated return), or — for comparison with the spec's claimed
output — an upload job identifier. -/
inductive PyValue where
  | none
  | jobId (n : Nat)
deriving DecidableEq, Repr

/-- The behavior of the external download and upload services during one
handler invocation: what `downloader_runner.download` yields for the event's
file references, and what `uploader_runner.upload` returns (or which error
either raises). -/
structure Env where
  download : List File → Except String (List DownloadedFile)
  upload : UploadCall → Except String UploadResponse

/-- The local state the handler touches: the set of existing temporary
directories (as fresh numeric names), a fresh-name counter, and the log of
upload calls made so far. -/
structure FS where
  tempDirs : List Nat
  nextDir : Nat
  uploads : List UploadCall
deriving DecidableEq, Repr

/-- All existing temporary directories have names below the fresh counter. -/
def FS.wf (fs : FS) : Bool :=
  fs.tempDirs.all (· < fs.nextDir)

/-- Semantics of `tempfile.TemporaryDirectory()` used as a `with` context manager: a fresh
directory is created, the body runs, and the directory is removed again whether
the body returns normally or raises (the raised error is re-raised). -/
def withTempDir (body : Nat → FS → FS × Except String PyValue) (fs : FS) :
    FS × Except String PyValue :=
  let d := fs.nextDir
  let res := body d { fs with tempDirs := d :: fs.tempDirs, nextDir := fs.nextDir + 1 }
  ({ res.1 with tempDirs := res.1.tempDirs.erase d }, res.2)

/-- Embedding of `SimpleEventHandler.handle` from the notebook: extract the transaction,
key-value and file records of the event; inside two temporary scratch
directories, download the event's files, write each one's uppercased contents
into the uploader scratch directory under the downloaded file's name, and
upload that directory under a new transaction carrying the `submitter`,
`instrument` and `project` of the triggering transaction and the key-value
pairs `uppercase_text = 'True'` and `Transactions._id = <triggering id>`.
The `(_bundle, _job_id, _state)` result of the upload is bound and discarded;
the method returns `None`. Failures of the download or upload propagate. -/
def SimpleEventHandler.handle (env : Env) (event : Event) (fs : FS) :
    FS × Except String PyValue :=
  let transaction_inst := Transaction.from_cloudevents_model event
  let _transaction_key_value_insts := TransactionKeyValue.from_cloudevents_model event
  let file_insts := File.from_cloudevents_model event
  withTempDir (fun _downloader_tempdir_name fs =>
    withTempDir (fun _uploader_tempdir_name fs =>
      match env.download file_insts with
      | Except.error e => (fs, Except.error e)
      | Except.ok opened_files =>
        let uploader_dir_files := opened_files.map (fun file_fd =>
          { name := file_fd.name, contents := str_upper file_fd.contents : DownloadedFile })
        let call : UploadCall :=
          { dirFiles := uploader_dir_files
            transaction :=
              { submitter := transaction_inst.submitter
                instrument := transaction_inst.instrument
                project := transaction_inst.project }
            transaction_key_values :=
              [ { key := "uppercase_text", value := some "True" },
                { key := "Transactions._id", value := transaction_inst._id } ] }
        let fs := { fs with uploads := fs.uploads ++ [call] }
        match env.upload call with
        | Except.error e => (fs, Except.error e)
        | Except.ok _resp => (fs, Except.ok PyValue.none)) fs) fs

/-- The upload call `SimpleEventHandler.handle` makes for a given event once
the download has yielded `downloaded`: a convenient name for stating the
theorems below, proven to coincide with the handler's behavior. -/
def uploadCallFor (event : Event) (downloaded : List DownloadedFile) : UploadCall :=
  { dirFiles := downloaded.map (fun file_fd =>
      { name := file_fd.name, contents := str_upper file_fd.contents })
    transaction :=
      { submitter := event.transaction.submitter
        instrument := event.transaction.instrument
        project := event.transaction.project }
    transaction_key_values :=
      [ { key := "uppercase_text", value := some "True" },
        { key := "Transactions._id", value := event.transaction._id } ] }

theorem handle_download_error (env : Env) (event : Event) (fs : FS) (e : String)
    (h : env.download event.files = Except.error e) :
    SimpleEventHandler.handle env event fs =
      ({ fs with nextDir := fs.nextDir + 2 }, Except.error e) := by
  simp only [SimpleEventHandler.handle, withTempDir, File.from_cloudevents_model,
    Transaction.from_cloudevents_model, TransactionKeyValue.from_cloudevents_model, h]
  simp [List.erase_cons]

theorem handle_download_ok (env : Env) (event : Event) (fs : FS)
    (downloaded : List DownloadedFile)
    (h : env.download event.files = Except.ok downloaded) :
    SimpleEventHandler.handle env event fs =
      ({ fs with nextDir := fs.nextDir + 2,
                 uploads := fs.uploads ++ [uploadCallFor event downloaded] },
        match env.upload (uploadCallFor event downloaded) with
        | Except.error e => Except.error e
        | Except.ok _ => Except.ok PyValue.none) := by
  simp only [SimpleEventHandler.handle, withTempDir, File.from_cloudevents_model,
    Transaction.from_cloudevents_model, TransactionKeyValue.from_cloudevents_model, h,
    uploadCallFor]
  cases henv : env.upload (uploadCallFor event downloaded) <;>
    simp_all [uploadCallFor, List.erase_cons]

/-!
The router side. The notebook registers one route:

    ROUTER.add_route(
        Path.parse_str(helper string for the jsonpath predicate),
        SimpleEventHandler(...))

with the predicate selecting, inside the event payload's `data` array, a
record with `destinationTable = "TransactionKeyValue"`,
`key = "uppercase_text"` and `value = "False"`. The jsonpath engine and the
`Router` class live in external packages; the matching semantics below is
modelled from the spec: a predicate is a declarative path/filter expression
over the payload's `data` records, and an event matches when some record
satisfies the filter.
-/

/-- One destination-table record of the event payload's `data` array, with the
fields the registered predicate inspects. -/
structure EventRecord where
  destinationTable : String
  key : String
  value : String
deriving DecidableEq, Repr

/-- An event payload as delivered to the `/receive` endpoint: a `data` array
of destination-table records. -/
structure NotifyEvent where
  data : List EventRecord
deriving DecidableEq, Repr

/-- Field access `@["f"]` on a record. -/
def EventRecord.getField (r : EventRecord) (f : String) : Option String :=
  if f = "destinationTable" then some r.destinationTable
  else if f = "key" then some r.key
  else if f = "value" then some r.value
  else none

/-- A parsed filter expression: field-equality tests joined by `and`. -/
inductive Filter where
  | fieldEq (field : String) (value : String)
  | and (a b : Filter)
deriving DecidableEq, Repr

/-- Evaluate a filter on one record. -/
def Filter.eval : Filter → EventRecord → Bool
  | Filter.fieldEq f v, r => r.getField f = some v
  | Filter.and a b, r => a.eval r && b.eval r

/-- A parsed predicate of the shape `$["data"][*][?( filter )]`: the shape the
notebook's one registration uses. -/
structure Path where
  filter : Filter
deriving DecidableEq, Repr

/-- Modelled from the spec: structural matching — the predicate matches an
event when some record of its `data` array satisfies the filter. -/
def Path.matches (p : Path) (e : NotifyEvent) : Bool :=
  e.data.any (fun r => p.filter.eval r)

/-- A token of a predicate expression, as fed to `Path.parse_str`. -/
inductive Token where
  | dollar | lbracket | rbracket | star | question | lparen | rparen
  | atSign | eqSign | andTok
  | strLit (s : String)
deriving DecidableEq, Repr

/-- Parse one filter atom `@["field"] = "value"`. -/
def parseAtom : List Token → Except String (Filter × List Token)
  | Token.atSign :: Token.lbracket :: Token.strLit f :: Token.rbracket ::
      Token.eqSign :: Token.strLit v :: rest =>
    Except.ok (Filter.fieldEq f v, rest)
  | _ => Except.error "expected field comparison"

/-- Parse a conjunction of filter atoms. -/
def parseConj : Nat → List Token → Except String (Filter × List Token)
  | 0, _ => Except.error "expression too long"
  | fuel + 1, toks =>
    match parseAtom toks with
    | Except.error e => Except.error e
    | Except.ok (f, rest) =>
      match rest with
      | Token.andTok :: rest2 =>
        match parseConj fuel rest2 with
        | Except.error e => Except.error e
        | Except.ok (g, rest3) => Except.ok (Filter.and f g, rest3)
      | _ => Except.ok (f, rest)

/-- Modelled from the spec: `Path.parse_str` (external jsonpath engine) parses
a predicate expression of the shape `$["data"][*][?( conjunction )]`,
raising an error on malformed input. -/
def Path.parse_str (toks : List Token) : Except String Path :=
  match toks with
  | Token.dollar :: Token.lbracket :: Token.strLit "data" :: Token.rbracket ::
      Token.lbracket :: Token.star :: Token.rbracket ::
      Token.lbracket :: Token.question :: Token.lparen :: rest =>
    match parseConj rest.length rest with
    | Except.error e => Except.error e
    | Except.ok (f, [Token.rparen, Token.rbracket]) => Except.ok { filter := f }
    | Except.ok _ => Except.error "unexpected trailing tokens"
  | _ => Except.error "malformed path"

/-- Identifies a handler object registered on the router; the notebook
registers exactly one, the `SimpleEventHandler` instance. -/
inductive HandlerId where
  | simpleEventHandler
deriving DecidableEq, Repr

/-- Modelled from the spec: `pacifica.dispatcher.router.Router` — an ordered
collection of (predicate, handler) pairs. -/
structure Router where
  routes : List (Path × HandlerId)
deriving DecidableEq, Repr

/-- Model of `Router.add_route`: append one (predicate, handler) pair. -/
def Router.add_route (r : Router) (p : Path) (h : HandlerId) : Router :=
  { routes := r.routes ++ [(p, h)] }

/-- Modelled from the spec: the handlers the router invokes on an inbound
event are exactly those registered with a predicate matching the event. -/
def Router.invokedHandlers (r : Router) (e : NotifyEvent) : List HandlerId :=
  r.routes.filterMap (fun ph => if ph.1.matches e then some ph.2 else none)

/-- Registration as the notebook performs it: parse the predicate expression,
then add the route; a parse error propagates and no route is added. -/
def registerRoute (r : Router) (toks : List Token) (h : HandlerId) :
    Except String Router :=
  match Path.parse_str toks with
  | Except.error e => Except.error e
  | Except.ok p => Except.ok (r.add_route p h)

/-- The token stream of the notebook's registered predicate expression
`$["data"][*][?( @["destinationTable"] = "TransactionKeyValue" and
@["key"] = "uppercase_text" and @["value"] = "False" )]`. -/
def uppercaseTokens : List Token :=
  [ Token.dollar, Token.lbracket, Token.strLit "data", Token.rbracket,
    Token.lbracket, Token.star, Token.rbracket,
    Token.lbracket, Token.question, Token.lparen,
    Token.atSign, Token.lbracket, Token.strLit "destinationTable", Token.rbracket,
    Token.eqSign, Token.strLit "TransactionKeyValue",
    Token.andTok,
    Token.atSign, Token.lbracket, Token.strLit "key", Token.rbracket,
    Token.eqSign, Token.strLit "uppercase_text",
    Token.andTok,
    Token.atSign, Token.lbracket, Token.strLit "value", Token.rbracket,
    Token.eqSign, Token.strLit "False",
    Token.rparen, Token.rbracket ]

/-- The parsed form of the registered predicate. -/
def uppercasePath : Path :=
  { filter :=
      Filter.and (Filter.fieldEq "destinationTable" "TransactionKeyValue")
        (Filter.and (Filter.fieldEq "key" "uppercase_text")
          (Filter.fieldEq "value" "False")) }

/-- Parsing the notebook's predicate expression yields `uppercasePath`. -/
theorem parse_uppercaseTokens :
    Path.parse_str uppercaseTokens = Except.ok uppercasePath := by
  decide

/-- The notebook's `ROUTER` after its one registration. -/
def ROUTER : Router :=
  Router.add_route { routes := [] } uppercasePath HandlerId.simpleEventHandler

/-- Modelled from the spec: the dispatcher task runner records the task status
`"200 OK"` when the handler it invoked returned without raising; a raised
error is recorded instead. -/
def taskStatus (result : Except String PyValue) : String :=
  match result with
  | Except.ok _ => "200 OK"
  | Except.error e => e

/-!
Concrete fixtures used by the witnesses and counterexamples.
-/

/-- The initial local state: no temporary directories, no uploads logged. -/
def fs0 : FS :=
  { tempDirs := [], nextDir := 0, uploads := [] }

/-- The spec's end-to-end scenario event: a transaction with one file whose
key-value set carries `uppercase_text = False`. -/
def eventHello : Event :=
  { transaction :=
      { _id := some "67", submitter := some "dmlb2001",
        instrument := some "54", project := some "1234a" }
    transactionKeyValues := [{ key := "uppercase_text", value := some "False" }]
    files := [{ name := "hello.txt" }] }

/-- Services that behave: the download yields one file containing `"hello"`,
the upload succeeds with job identifier 42. -/
def envHello : Env :=
  { download := fun _ => Except.ok [{ name := "hello.txt", contents := "hello" }]
    upload := fun _ => Except.ok { bundle := 1, job_id := 42, state := "OK" } }

/-- Services whose download raises. -/
def envDownFail : Env :=
  { download := fun _ => Except.error "download failed"
    upload := fun _ => Except.ok { bundle := 1, job_id := 42, state := "OK" } }

/-- Services whose upload raises. -/
def envUpFail : Env :=
  { download := fun _ => Except.ok [{ name := "hello.txt", contents := "hello" }]
    upload := fun _ => Except.error "upload failed" }

/-- Helper: a name below the fresh counter is the only kind that can be in the
temporary-directory list of a well-formed state. -/
theorem FS.not_mem_of_wf (fs : FS) (hwf : fs.wf = true) (d : Nat)
    (hd : fs.nextDir ≤ d) : d ∉ fs.tempDirs := by
  intro hmem
  have h1 := List.all_eq_true.mp hwf d hmem
  have h2 : d < fs.nextDir := by simpa using h1
  omega

/-- A `data` record carrying the marker pair `uppercase_text = "True"`. -/
def tkvTrueRecord : EventRecord :=
  { destinationTable := "TransactionKeyValue", key := "uppercase_text",
    value := "True" }

/-- A `data` record carrying the marker pair `uppercase_text = "False"`. -/
def tkvFalseRecord : EventRecord :=
  { destinationTable := "TransactionKeyValue", key := "uppercase_text",
    value := "False" }

/-- A `data` record carrying a back-reference pair `Transactions._id = "67"`,
as the handler's own upload produces. -/
def backRefRecord : EventRecord :=
  { destinationTable := "TransactionKeyValue", key := "Transactions._id",
    value := "67" }

/-- Helper: the registered predicate matches an event exactly when its `data`
array holds a `TransactionKeyValue` record with key `uppercase_text` and value
`"False"`. -/
theorem uppercasePath_matches_iff (e : NotifyEvent) :
    uppercasePath.matches e = true ↔ tkvFalseRecord ∈ e.data := by
  simp only [Path.matches, uppercasePath, List.any_eq_true]
  constructor
  · rintro ⟨r, hr, hev⟩
    obtain ⟨dt, k, v⟩ := r
    simp [Filter.eval, EventRecord.getField] at hev
    obtain ⟨h1, h2, h3⟩ := hev
    subst h1; subst h2; subst h3
    exact hr
  · intro hmem
    exact ⟨_, hmem, by simp [Filter.eval, EventRecord.getField, tkvFalseRecord]⟩

/-- C1: for every event whose transaction key-value set contains
`uppercase_text = False`, the handler acts on it and makes exactly one call to
the uploader runner; the transaction key-value set of that call contains
`uppercase_text = True`, and the files it uploads have as contents the
uppercase transform of the corresponding downloaded input files' contents. -/
theorem C1_one_uppercased_upload (env : Env) (event : Event) (fs : FS)
    (downloaded : List DownloadedFile)
    (_hflag : ({ key := "uppercase_text", value := some "False" } :
        TransactionKeyValue) ∈ event.transactionKeyValues)
    (hdl : env.download event.files = Except.ok downloaded) :
    ∃ call : UploadCall,
      ((SimpleEventHandler.handle env event fs).1).uploads = fs.uploads ++ [call] ∧
      (({ key := "uppercase_text", value := some "True" } :
          TransactionKeyValue) ∈ call.transaction_key_values) ∧
      call.dirFiles = downloaded.map (fun f =>
        { name := f.name, contents := str_upper f.contents }) := by
  refine ⟨uploadCallFor event downloaded, ?_, ?_, rfl⟩
  · rw [handle_download_ok env event fs downloaded hdl]
  · simp [uploadCallFor]

/-- C1 witness: the scenario event carries `uppercase_text = False` and the
download succeeds, so the handler makes exactly one upload call, tagged
`uppercase_text = True`, with uppercased contents. -/
theorem C1_one_uppercased_upload_witness :
    ∃ call : UploadCall,
      ((SimpleEventHandler.handle envHello eventHello fs0).1).uploads =
        fs0.uploads ++ [call] ∧
      (({ key := "uppercase_text", value := some "True" } :
          TransactionKeyValue) ∈ call.transaction_key_values) ∧
      call.dirFiles = ([{ name := "hello.txt", contents := "hello" }] :
          List DownloadedFile).map (fun f =>
        ({ name := f.name, contents := str_upper f.contents } : DownloadedFile)) :=
  C1_one_uppercased_upload envHello eventHello fs0
    [{ name := "hello.txt", contents := "hello" }] (by decide) rfl

/-- C2 counterexample: an event whose key-value records contain both
`uppercase_text = "True"` and `uppercase_text = "False"` has a key-value set
containing `uppercase_text = true`, yet the registered predicate matches it and
the router invokes `SimpleEventHandler` on it. -/
theorem C2_mixed_flags_counterexample :
    tkvTrueRecord ∈ (NotifyEvent.mk [tkvTrueRecord, tkvFalseRecord]).data ∧
    ROUTER.invokedHandlers (NotifyEvent.mk [tkvTrueRecord, tkvFalseRecord]) =
      [HandlerId.simpleEventHandler] := by
  decide

/-- C2 (amended): for every event whose key-value records contain
`uppercase_text = "True"` and do NOT also contain a `TransactionKeyValue`
record with key `uppercase_text` and value `"False"`, the registered predicate
does not match and the router invokes no handler — in particular not
`SimpleEventHandler` — so no reprocessing loop occurs. -/
theorem C2_no_reprocessing (e : NotifyEvent)
    (_htrue : tkvTrueRecord ∈ e.data)
    (hnofalse : tkvFalseRecord ∉ e.data) :
    ROUTER.invokedHandlers e = [] := by
  have hm : uppercasePath.matches e = false := by
    cases h : uppercasePath.matches e with
    | false => rfl
    | true => exact absurd ((uppercasePath_matches_iff e).mp h) hnofalse
  simp [Router.invokedHandlers, ROUTER, Router.add_route, hm]

/-- C2 witness: an event carrying only the `uppercase_text = "True"` record —
as produced by the handler's own upload — is routed to no handler. -/
theorem C2_no_reprocessing_witness :
    ROUTER.invokedHandlers (NotifyEvent.mk [tkvTrueRecord, backRefRecord]) = [] :=
  C2_no_reprocessing _ (by decide) (by decide)

/-- C3: on every invocation, both temporary scratch directories created during
handling are gone again when the handler returns — the directory list is
exactly what it was before the call, and neither created name is in it — on
the success path and on every error path of the download or upload. -/
theorem C3_tempdirs_cleaned (env : Env) (event : Event) (fs : FS)
    (hwf : fs.wf = true) :
    ((SimpleEventHandler.handle env event fs).1).tempDirs = fs.tempDirs ∧
    fs.nextDir ∉ ((SimpleEventHandler.handle env event fs).1).tempDirs ∧
    fs.nextDir + 1 ∉ ((SimpleEventHandler.handle env event fs).1).tempDirs := by
  have hne := FS.not_mem_of_wf fs hwf fs.nextDir (Nat.le_refl _)
  have hne1 := FS.not_mem_of_wf fs hwf (fs.nextDir + 1) (Nat.le_succ _)
  cases hdl : env.download event.files with
  | error e =>
    rw [handle_download_error env event fs e hdl]
    exact ⟨rfl, hne, hne1⟩
  | ok downloaded =>
    rw [handle_download_ok env event fs downloaded hdl]
    exact ⟨rfl, hne, hne1⟩

/-- C3 witness: on the concrete scenario — and likewise on a failing download —
starting from the empty well-formed state, the temporary directories 0 and 1
created during handling do not survive the call. -/
theorem C3_tempdirs_cleaned_witness :
    ((SimpleEventHandler.handle envHello eventHello fs0).1).tempDirs = fs0.tempDirs ∧
    fs0.nextDir ∉ ((SimpleEventHandler.handle envHello eventHello fs0).1).tempDirs ∧
    fs0.nextDir + 1 ∉ ((SimpleEventHandler.handle envHello eventHello fs0).1).tempDirs :=
  C3_tempdirs_cleaned envHello eventHello fs0 (by decide)

/-- C4: the handler catches nothing — when the download raises, or when the
download succeeds and the upload raises, the same error is what the handler
invocation returns to the task runner. -/
theorem C4_errors_propagate (env : Env) (event : Event) (fs : FS) (e : String) :
    (env.download event.files = Except.error e →
      (SimpleEventHandler.handle env event fs).2 = Except.error e) ∧
    (∀ downloaded : List DownloadedFile,
      env.download event.files = Except.ok downloaded →
      (∀ c : UploadCall, env.upload c = Except.error e) →
      (SimpleEventHandler.handle env event fs).2 = Except.error e) := by
  constructor
  · intro h
    rw [handle_download_error env event fs e h]
  · intro downloaded h hup
    rw [handle_download_ok env event fs downloaded h]
    simp [hup]

/-- C4 witness: a failing download propagates its error out of the handler
unchanged. -/
theorem C4_errors_propagate_witness :
    (SimpleEventHandler.handle envDownFail eventHello fs0).2 =
      Except.error "download failed" :=
  (C4_errors_propagate envDownFail eventHello fs0 "download failed").1 rfl

/-- C5: registering a route the way the notebook does — parsing the predicate
expression, then adding the route — fails at registration time with the parse
error when the expression is malformed (no route is added), and a successful
registration appends a route holding the already-parsed predicate. -/
theorem C5_malformed_rejected_at_registration (r : Router) (toks : List Token)
    (h : HandlerId) :
    (∀ e : String, Path.parse_str toks = Except.error e →
      registerRoute r toks h = Except.error e) ∧
    (∀ p : Path, Path.parse_str toks = Except.ok p →
      registerRoute r toks h = Except.ok { routes := r.routes ++ [(p, h)] }) := by
  constructor <;> intro x hx <;> simp [registerRoute, hx, Router.add_route]

/-- C5 witness: a malformed expression is rejected at registration time, and
the notebook's actual predicate expression registers a route holding its
parsed form. -/
theorem C5_malformed_rejected_at_registration_witness :
    registerRoute { routes := [] } [Token.dollar] HandlerId.simpleEventHandler =
      Except.error "malformed path" ∧
    registerRoute { routes := [] } uppercaseTokens HandlerId.simpleEventHandler =
      Except.ok { routes := [(uppercasePath, HandlerId.simpleEventHandler)] } :=
  ⟨(C5_malformed_rejected_at_registration { routes := [] } [Token.dollar]
      HandlerId.simpleEventHandler).1 "malformed path" (by decide),
   (C5_malformed_rejected_at_registration { routes := [] } uppercaseTokens
      HandlerId.simpleEventHandler).2 uppercasePath (by decide)⟩

/-- C6 counterexample: on a successfully handled event the upstream service
issues upload job identifier 42, but the value the handler invocation returns
is `None` — not the job identifier. -/
theorem C6_returns_none_counterexample :
    (SimpleEventHandler.handle envHello eventHello fs0).2 = Except.ok PyValue.none ∧
    envHello.upload
        (uploadCallFor eventHello [{ name := "hello.txt", contents := "hello" }]) =
      Except.ok { bundle := 1, job_id := 42, state := "OK" } ∧
    (SimpleEventHandler.handle envHello eventHello fs0).2 ≠
      Except.ok (PyValue.jobId 42) := by
  decide

/-- C6 (amended): for every successfully handled event the handler makes the
one upload call — for which the upstream service issues a new upload job
identifier — but binds the returned triple to discarded variables and returns
`None`; job completion tracking is left to the external platform. -/
theorem C6_upload_made_result_discarded (env : Env) (event : Event) (fs : FS)
    (downloaded : List DownloadedFile) (resp : UploadResponse)
    (hdl : env.download event.files = Except.ok downloaded)
    (hup : ∀ c : UploadCall, env.upload c = Except.ok resp) :
    (SimpleEventHandler.handle env event fs).2 = Except.ok PyValue.none ∧
    ((SimpleEventHandler.handle env event fs).1).uploads =
      fs.uploads ++ [uploadCallFor event downloaded] := by
  rw [handle_download_ok env event fs downloaded hdl]
  simp [hup]

/-- C6 witness: on the concrete scenario the upload is made and the handler
returns `None`. -/
theorem C6_upload_made_result_discarded_witness :
    (SimpleEventHandler.handle envHello eventHello fs0).2 = Except.ok PyValue.none ∧
    ((SimpleEventHandler.handle envHello eventHello fs0).1).uploads =
      fs0.uploads ++
        [uploadCallFor eventHello [{ name := "hello.txt", contents := "hello" }]] :=
  C6_upload_made_result_discarded envHello eventHello fs0
    [{ name := "hello.txt", contents := "hello" }]
    { bundle := 1, job_id := 42, state := "OK" } rfl (fun _ => rfl)

/-- C7: in the end-to-end scenario, an input file containing `"hello"` is
re-uploaded containing `"HELLO"`, and the associated dispatcher task status
reads `"200 OK"`. -/
theorem C7_hello_scenario :
    ((SimpleEventHandler.handle envHello eventHello fs0).1).uploads.map
        (fun c => c.dirFiles) =
      [[{ name := "hello.txt", contents := "HELLO" }]] ∧
    taskStatus (SimpleEventHandler.handle envHello eventHello fs0).2 = "200 OK" := by
  decide

/-- C8: for every handled event, the new transaction of the re-upload carries
the `submitter`, `instrument` and `project` of the triggering event's
transaction unchanged, and no other field of the original — in particular not
its `_id` — is carried over. -/
theorem C8_transaction_fields_preserved (env : Env) (event : Event) (fs : FS)
    (downloaded : List DownloadedFile)
    (hdl : env.download event.files = Except.ok downloaded) :
    ∃ call : UploadCall,
      ((SimpleEventHandler.handle env event fs).1).uploads = fs.uploads ++ [call] ∧
      call.transaction.submitter = event.transaction.submitter ∧
      call.transaction.instrument = event.transaction.instrument ∧
      call.transaction.project = event.transaction.project ∧
      call.transaction._id = none := by
  refine ⟨uploadCallFor event downloaded, ?_, rfl, rfl, rfl, rfl⟩
  rw [handle_download_ok env event fs downloaded hdl]

/-- C8 witness: on the concrete scenario the re-upload transaction repeats the
submitter, instrument and project and has no `_id`. -/
theorem C8_transaction_fields_preserved_witness :
    ∃ call : UploadCall,
      ((SimpleEventHandler.handle envHello eventHello fs0).1).uploads =
        fs0.uploads ++ [call] ∧
      call.transaction.submitter = eventHello.transaction.submitter ∧
      call.transaction.instrument = eventHello.transaction.instrument ∧
      call.transaction.project = eventHello.transaction.project ∧
      call.transaction._id = none :=
  C8_transaction_fields_preserved envHello eventHello fs0
    [{ name := "hello.txt", contents := "hello" }] rfl

/-- C9: for every handled event, the transaction key-value list of the
re-upload is exactly the two pairs `uppercase_text = 'True'` and
`Transactions._id = <id of the triggering event's transaction>`. -/
theorem C9_kv_pairs_exactly_two (env : Env) (event : Event) (fs : FS)
    (downloaded : List DownloadedFile)
    (hdl : env.download event.files = Except.ok downloaded) :
    ∃ call : UploadCall,
      ((SimpleEventHandler.handle env event fs).1).uploads = fs.uploads ++ [call] ∧
      call.transaction_key_values =
        [ { key := "uppercase_text", value := some "True" },
          { key := "Transactions._id", value := event.transaction._id } ] := by
  refine ⟨uploadCallFor event downloaded, ?_, rfl⟩
  rw [handle_download_ok env event fs downloaded hdl]

/-- C9 witness: on the concrete scenario the re-upload carries exactly the
marker pair and the back-reference to transaction 67. -/
theorem C9_kv_pairs_exactly_two_witness :
    ∃ call : UploadCall,
      ((SimpleEventHandler.handle envHello eventHello fs0).1).uploads =
        fs0.uploads ++ [call] ∧
      call.transaction_key_values =
        [ { key := "uppercase_text", value := some "True" },
          { key := "Transactions._id", value := eventHello.transaction._id } ] :=
  C9_kv_pairs_exactly_two envHello eventHello fs0
    [{ name := "hello.txt", contents := "hello" }] rfl

/-- C10: for every file downloaded during handling, the handler writes exactly
one transformed output file into the uploader scratch directory, under the same
name as the downloaded file's name — one output per download, names
preserved. -/
theorem C10_filenames_preserved (env : Env) (event : Event) (fs : FS)
    (downloaded : List DownloadedFile)
    (hdl : env.download event.files = Except.ok downloaded) :
    ∃ call : UploadCall,
      ((SimpleEventHandler.handle env event fs).1).uploads = fs.uploads ++ [call] ∧
      call.dirFiles.map (fun f => f.name) = downloaded.map (fun f => f.name) ∧
      call.dirFiles.length = downloaded.length := by
  refine ⟨uploadCallFor event downloaded, ?_, ?_, ?_⟩
  · rw [handle_download_ok env event fs downloaded hdl]
  · simp [uploadCallFor]
  · simp [uploadCallFor]

/-- C10 witness: on the concrete scenario the one downloaded file
`hello.txt` yields exactly one output file, also named `hello.txt`. -/
theorem C10_filenames_preserved_witness :
    ∃ call : UploadCall,
      ((SimpleEventHandler.handle envHello eventHello fs0).1).uploads =
        fs0.uploads ++ [call] ∧
      call.dirFiles.map (fun f => f.name) =
        ([{ name := "hello.txt", contents := "hello" }] :
          List DownloadedFile).map (fun f => f.name) ∧
      call.dirFiles.length =
        ([{ name := "hello.txt", contents := "hello" }] :
          List DownloadedFile).length :=
  C10_filenames_preserved envHello eventHello fs0
    [{ name := "hello.txt", contents := "hello" }] rfl

end Pacifica
